import Mathlib

/-!
Shallow embedding of the session and conversion engine of `src/bot.py`
(devmike09/Converter-Bot).

The filesystem ("Storage Area") is modelled as an association list from
paths to byte sizes; the per-user session store as an association list from
user ids to ordered lists of file paths.  The external transcoder (ffmpeg)
and the zip library are external collaborators and enter the model as
oracle parameters: a `Transcoder` says, for each invocation, the exit code
and whether an output file was written (and its size); `zipSize` says what
byte size the finished archive has, and `failOn` says on which file (if
any) `zipf.write` raises.  User-visible effects (message edits, document
uploads) are recorded as an event list.
-/

namespace ConverterBot

/-- Model of `TEMP_DIR = "temp_downloads"` (bot.py line 27). -/
def TEMP_DIR : String := "temp_downloads"

/-- The upload ceiling `49 * 1024 * 1024` used at bot.py lines 112 and 277. -/
def sizeLimit : Nat := 49 * 1024 * 1024

/-- The Storage Area: paths currently on disk with their byte sizes. -/
abbrev FS := List (String × Nat)

/-- Model of `os.path.exists`. -/
def FS.existsp (fs : FS) (p : String) : Bool :=
  fs.any (fun e => e.1 == p)

/-- Model of `os.remove`. -/
def FS.remove (fs : FS) (p : String) : FS :=
  fs.filter (fun e => e.1 != p)

/-- Creating or overwriting a file of the given size at the given path. -/
def FS.write (fs : FS) (p : String) (sz : Nat) : FS :=
  (p, sz) :: FS.remove fs p

/-- Model of `os.path.getsize` (0 for a missing file; the code only calls it
on files it just created). -/
def FS.getsize (fs : FS) (p : String) : Nat :=
  match fs.find? (fun e => e.1 == p) with
  | some e => e.2
  | none => 0

/-- The Session Store `user_sessions` (bot.py line 24): user id to ordered
list of file paths. -/
abbrev Sessions := List (Nat × List String)

/-- Dictionary lookup `user_sessions[user_id]`, `none` when the key is
absent (python `user_id not in user_sessions`). -/
def slookup (user : Nat) : Sessions → Option (List String)
  | [] => none
  | (k, v) :: rest => if k = user then some v else slookup user rest

/-- Dictionary update `user_sessions[user_id] = files`. -/
def sset (user : Nat) (files : List String) (s : Sessions) : Sessions :=
  (user, files) :: s.filter (fun e => e.1 != user)

/-- The session append of `handle_media` (bot.py lines 170-172): create the
list if absent, then append the new path at the end. -/
def session_append (user : Nat) (path : String) (s : Sessions) : Sessions :=
  match slookup user s with
  | none => sset user [path] s
  | some l => sset user (l ++ [path]) s

/-- Python `list.split(sep)` step: split off everything up to the first
separator, `none` when the separator does not occur. -/
def splitOnce (sep : Char) : List Char → Option (List Char × List Char)
  | [] => none
  | c :: cs =>
    if c = sep then some ([], cs)
    else
      match splitOnce sep cs with
      | some (l, r) => some (c :: l, r)
      | none => none

/-- Python `s.split(sep, 2)`: at most the first two occurrences of the
separator split the string, the remainder is kept whole. -/
def split2 (sep : Char) (s : List Char) : List (List Char) :=
  match splitOnce sep s with
  | none => [s]
  | some (a, rest) =>
    match splitOnce sep rest with
    | none => [a, rest]
    | some (b, rest2) => [a, b, rest2]

/-- Python `str.startswith` over the underlying character lists. -/
def isPrefixList : List Char → List Char → Bool
  | [], _ => true
  | _ :: _, [] => false
  | a :: as, b :: bs => a == b && isPrefixList as bs

/-- Model of `data.startswith(pre)` (bot.py line 220). -/
def startswith (s pre : String) : Bool :=
  isPrefixList pre.data s.data

/-- The Action Token encoder: the button payloads
`f"conv_{action}_{filepath}"` built at bot.py lines 177-186. -/
def encode (action filepath : String) : String :=
  "conv_" ++ action ++ "_" ++ filepath

/-- The Action Token decoder, bot.py lines 220-223: accept payloads starting
with `conv_`, then `parts = data.split("_", 2)`, `action = parts[1]`,
`filepath = parts[2]`.  `none` models both the non-`conv_` fall-through
(the handler does nothing) and the `IndexError` a short payload raises. -/
def decode (data : String) : Option (String × String) :=
  if startswith data "conv_" then
    match split2 '_' data.data with
    | [_, action, filepath] => some (String.mk action, String.mk filepath)
    | _ => none
  else none

/-- Model of `os.path.basename`: the part after the last slash. -/
def basename (p : String) : String :=
  String.mk ((p.data.reverse.takeWhile (fun c => c != '/')).reverse)

/-- Model of `os.path.splitext(p)[0]` (posix rules): drop the extension of
the basename, where the extension starts at the last dot of the basename
unless everything before that dot is dots (hidden files keep their name). -/
def splitextRoot (p : String) : String :=
  let rev := p.data.reverse
  let revBase := rev.takeWhile (fun c => c != '/')
  let revExt := revBase.takeWhile (fun c => c != '.')
  if revExt.length = revBase.length then p
  else if (revBase.drop (revExt.length + 1)).all (fun c => c == '.') then p
  else String.mk ((rev.drop (revExt.length + 1)).reverse)

/-- Python `str.upper()` (character-wise upcasing), used on the action tag
in the "Converting to ..." status edit at bot.py line 229. -/
def upper (s : String) : String :=
  String.mk (s.data.map Char.toUpper)

/-- The conversion output path of bot.py lines 232-233:
`f"{os.path.splitext(filepath)[0]}_converted.{action}"`. -/
def output_path (filepath action : String) : String :=
  splitextRoot filepath ++ "_converted." ++ action

/-- The two fixed ffmpeg argument templates of bot.py lines 236 and 238:
plain re-encode for the image family, audio demux for mp3. -/
inductive FfmpegMode where
  | image
  | audio
  deriving DecidableEq, Repr

/-- One external transcoder invocation: given the argument template, input
path and output path, the exit code and the size of the output file it
wrote, if it wrote one. -/
structure TranscodeResult where
  exitCode : Nat
  output : Option Nat
  deriving DecidableEq, Repr

/-- The external transcoder as an oracle. -/
def Transcoder := FfmpegMode → String → String → TranscodeResult

/-- `subprocess.run(["ffmpeg", ...], check=True)`: the output file the tool
wrote (if any) lands in the Storage Area; `check=True` raises exactly when
the exit code is non-zero (the Bool component). -/
def runFfmpeg (tr : Transcoder) (mode : FfmpegMode) (src dst : String) (fs : FS) : Bool × FS :=
  let r := tr mode src dst
  (r.exitCode != 0,
   match r.output with
   | some sz => FS.write fs dst sz
   | none => fs)

/-- User-visible effects of a handler: status-message edits, document
uploads, status-message deletion, popup alerts. -/
inductive Ev where
  | editMsg (s : String)
  | sendDoc (p : String)
  | deleteMsg
  | alert (s : String)
  deriving DecidableEq, Repr

/-- The conversion body of `button_callback`, bot.py lines 225-251: check
the source still exists, invoke ffmpeg per the action tag (unknown tags run
nothing), then if the output file exists send it and delete it, else report
failure; an exception from `check=True` is caught and reported. -/
def conv_branch (tr : Transcoder) (action filepath : String) (fs : FS) : List Ev × FS :=
  if FS.existsp fs filepath = false then
    ([Ev.editMsg "File expired or no longer exists on the server."], fs)
  else
    let op := output_path filepath action
    let res :=
      if action ∈ ["png", "webp", "jpg", "pdf"] then runFfmpeg tr FfmpegMode.image filepath op fs
      else if action = "mp3" then runFfmpeg tr FfmpegMode.audio filepath op fs
      else (false, fs)
    if res.1 = true then
      ([Ev.editMsg ("Converting to " ++ upper action ++ "..."),
        Ev.editMsg "An error occurred during conversion."], res.2)
    else if FS.existsp res.2 op = true then
      ([Ev.editMsg ("Converting to " ++ upper action ++ "..."),
        Ev.editMsg "Uploading converted file...", Ev.sendDoc op, Ev.deleteMsg],
       FS.remove res.2 op)
    else
      ([Ev.editMsg ("Converting to " ++ upper action ++ "..."),
        Ev.editMsg "Conversion failed."], res.2)

/-- `button_callback` (bot.py lines 198-251): the `check_sub` button, the
subscription gate, then the conversion dispatch through `decode`. -/
def button_callback (tr : Transcoder) (subscribed : Bool) (data : String) (fs : FS) :
    List Ev × FS :=
  if data = "check_sub" then
    if subscribed then ([Ev.editMsg "Thank you for joining! You can now use the bot."], fs)
    else ([Ev.alert "You have not joined the channel yet!"], fs)
  else if subscribed = false then
    ([Ev.editMsg "You must join the channel to convert files."], fs)
  else
    match decode data with
    | some (action, filepath) => conv_branch tr action filepath fs
    | none => ([], fs)

/-- State of the archive-construction loop of bot.py lines 270-273: entries
written so far (by base name), the Storage Area, and whether `zipf.write`
raised. -/
structure ZipAddState where
  entries : List String
  fs : FS
  raised : Bool
  deriving DecidableEq, Repr

/-- The loop `for file in user_sessions[user_id]` of bot.py lines 270-273:
existing files are written to the archive under their base name and then
removed; a `zipf.write` fault (oracle `failOn`) raises out of the loop. -/
def zipAdd (failOn : String → Bool) : List String → List String → FS → ZipAddState
  | [], acc, fs => ⟨acc, fs, false⟩
  | f :: rest, acc, fs =>
    if FS.existsp fs f = true then
      if failOn f = true then ⟨acc, fs, true⟩
      else zipAdd failOn rest (acc ++ [basename f]) (FS.remove fs f)
    else zipAdd failOn rest acc fs

/-- Outcome of `zip_files` as seen by the user. -/
inductive ZipOutcome where
  | joinPrompt
  | noFiles
  | errorZip
  | tooLarge
  | sent
  deriving DecidableEq, Repr

/-- Result of `zip_files`: outcome, session store, Storage Area, and the
entries of the archive that was built (empty when none was). -/
structure ZipResult where
  outcome : ZipOutcome
  sessions : Sessions
  fs : FS
  entries : List String
  deriving DecidableEq, Repr

/-- `zip_files` (bot.py lines 254-292): empty or absent session is refused
before any file is created; otherwise the archive is opened (the file
appears on disk), existing session files are added and removed one by one,
the session is emptied, the size guard runs against the finished archive,
and the `finally` block always removes the archive file itself.  `zipSize`
is the oracle for the byte size the zip library produces. -/
def zip_files (zipSize : List String → Nat) (failOn : String → Bool) (subscribed : Bool)
    (user : Nat) (zipname : String) (sessions : Sessions) (fs : FS) : ZipResult :=
  if subscribed = false then ⟨ZipOutcome.joinPrompt, sessions, fs, []⟩
  else
    match slookup user sessions with
    | none => ⟨ZipOutcome.noFiles, sessions, fs, []⟩
    | some files =>
      if files = [] then ⟨ZipOutcome.noFiles, sessions, fs, []⟩
      else
        let fs0 := FS.write fs zipname 0
        let r := zipAdd failOn files [] fs0
        let fs2 := FS.write r.fs zipname (zipSize r.entries)
        if r.raised = true then
          ⟨ZipOutcome.errorZip, sessions, FS.remove fs2 zipname, r.entries⟩
        else
          let sessions1 := sset user [] sessions
          if FS.getsize fs2 zipname > sizeLimit then
            ⟨ZipOutcome.tooLarge, sessions1, FS.remove fs2 zipname, r.entries⟩
          else
            ⟨ZipOutcome.sent, sessions1, FS.remove fs2 zipname, r.entries⟩

/-- Outcome of `clear_session` as seen by the user. -/
inductive ClearOutcome where
  | joinPrompt
  | cleared
  | alreadyEmpty
  deriving DecidableEq, Repr

/-- Result of `clear_session`. -/
structure ClearResult where
  outcome : ClearOutcome
  sessions : Sessions
  fs : FS
  deriving DecidableEq, Repr

/-- The deletion loop of bot.py lines 303-305: best-effort removal of every
referenced file (a missing file is skipped, not an error). -/
def deleteFiles : List String → FS → FS
  | [], fs => fs
  | f :: rest, fs =>
    deleteFiles rest (if FS.existsp fs f = true then FS.remove fs f else fs)

/-- `clear_session` (bot.py lines 295-309): when the user has a session,
delete every referenced file and empty the list; otherwise just report that
the session is already empty. -/
def clear_session (subscribed : Bool) (user : Nat) (sessions : Sessions) (fs : FS) :
    ClearResult :=
  if subscribed = false then ⟨ClearOutcome.joinPrompt, sessions, fs⟩
  else
    match slookup user sessions with
    | some files => ⟨ClearOutcome.cleared, sset user [] sessions, deleteFiles files fs⟩
    | none => ⟨ClearOutcome.alreadyEmpty, sessions, fs⟩

/-- The file-naming of `handle_link` (bot.py lines 100-102):
`filename = os.path.basename(parsed_url.path) or f"download_{uuid4().hex[:8]}.file"`,
stored under `TEMP_DIR`.  `parsedPath` is the path component of the URL,
`uuid8` the 8-hex-digit draw used only by the fallback. -/
def link_filepath (parsedPath : String) (uuid8 : String) : String :=
  let filename :=
    if basename parsedPath = "" then "download_" ++ uuid8 ++ ".file"
    else basename parsedPath
  TEMP_DIR ++ "/" ++ filename

/-- The file-naming of `handle_media` (bot.py line 167):
`os.path.join(TEMP_DIR, f"{uuid.uuid4().hex}{ext}")` with a 32-hex-digit
uuid draw. -/
def media_filepath (uuidHex ext : String) : String :=
  TEMP_DIR ++ "/" ++ uuidHex ++ ext

/-! ### Helper lemmas about the Storage Area and the Session Store -/

theorem existsp_cons (e : String × Nat) (fs : FS) (q : String) :
    FS.existsp (e :: fs) q = (e.1 == q || FS.existsp fs q) := by
  simp [FS.existsp]

theorem remove_cons_eq (e : String × Nat) (fs : FS) (p : String) (h : e.1 = p) :
    FS.remove (e :: fs) p = FS.remove fs p := by
  simp [FS.remove, List.filter_cons, h]

theorem remove_cons_ne (e : String × Nat) (fs : FS) (p : String) (h : e.1 ≠ p) :
    FS.remove (e :: fs) p = e :: FS.remove fs p := by
  simp [FS.remove, List.filter_cons, h]

theorem existsp_remove_self (fs : FS) (p : String) :
    FS.existsp (FS.remove fs p) p = false := by
  induction fs with
  | nil => rfl
  | cons e rest ih =>
    by_cases h : e.1 = p
    · rw [remove_cons_eq e rest p h]; exact ih
    · rw [remove_cons_ne e rest p h, existsp_cons, ih]
      simp [h]

theorem existsp_remove_ne (fs : FS) (p q : String) (h : q ≠ p) :
    FS.existsp (FS.remove fs p) q = FS.existsp fs q := by
  induction fs with
  | nil => rfl
  | cons e rest ih =>
    by_cases he : e.1 = p
    · rw [remove_cons_eq e rest p he, ih, existsp_cons]
      have hb : (e.1 == q) = false := by
        rw [he]; exact beq_eq_false_iff_ne.mpr (Ne.symm h)
      rw [hb]; simp
    · rw [remove_cons_ne e rest p he, existsp_cons, ih, existsp_cons]

theorem existsp_remove_absent (fs : FS) (p q : String) (h : FS.existsp fs q = false) :
    FS.existsp (FS.remove fs p) q = false := by
  by_cases e : q = p
  · subst e; exact existsp_remove_self fs q
  · rw [existsp_remove_ne fs p q e]; exact h

theorem existsp_write_self (fs : FS) (p : String) (sz : Nat) :
    FS.existsp (FS.write fs p sz) p = true := by
  simp [FS.write, existsp_cons]

theorem existsp_write_ne (fs : FS) (p : String) (sz : Nat) (q : String) (h : q ≠ p) :
    FS.existsp (FS.write fs p sz) q = FS.existsp fs q := by
  simp only [FS.write, existsp_cons]
  simp [Ne.symm h, existsp_remove_ne fs p q h]

theorem existsp_write_of (fs : FS) (p : String) (sz : Nat) (q : String)
    (h : FS.existsp fs q = true) :
    FS.existsp (FS.write fs p sz) q = true := by
  by_cases e : q = p
  · subst e; exact existsp_write_self fs q sz
  · rw [existsp_write_ne fs p sz q e]; exact h

theorem getsize_write_self (fs : FS) (p : String) (sz : Nat) :
    FS.getsize (FS.write fs p sz) p = sz := by
  simp [FS.getsize, FS.write, List.find?_cons]

theorem slookup_sset_self (user : Nat) (files : List String) (s : Sessions) :
    slookup user (sset user files s) = some files := by
  simp [sset, slookup]

/-! ### Codec theorems (claims C2 and C3) -/

/-- C2 (confirmed): for every operation tag in the fixed enumeration and
every file path, decoding the encoded action token yields back exactly that
tag and that path — `decode (encode op path) = some (op, path)`.  The
round trip survives the underscores inside `temp_downloads/...` because
`split("_", 2)` keeps everything after the second separator whole. -/
theorem decode_encode_roundtrip (op filepath : String)
    (h : op ∈ ["png", "webp", "pdf", "jpg", "mp3"]) :
    decode (encode op filepath) = some (op, filepath) := by
  simp only [List.mem_cons, List.not_mem_nil, or_false] at h
  rcases h with rfl | rfl | rfl | rfl | rfl <;> rfl

/-- C2 witness: the round trip at a concrete operation and path. -/
theorem decode_encode_roundtrip_w :
    decode (encode "png" "temp_downloads/abcd1234.jpg") =
      some ("png", "temp_downloads/abcd1234.jpg") :=
  decode_encode_roundtrip "png" "temp_downloads/abcd1234.jpg" (by decide)

/-- C3 counterexample: decoding a payload whose tag `gif` is outside the
fixed enumeration (and is not the recheck tag) does NOT fail: `decode`
returns the pair unchanged, so the claimed `MalformedToken` failure does
not exist in the code. -/
theorem decode_unknown_tag_succeeds_cex :
    decode "conv_gif_temp_downloads/e.jpg" = some ("gif", "temp_downloads/e.jpg")
    ∧ ("gif" : String) ∉ ["png", "webp", "pdf", "jpg", "mp3"]
    ∧ ("gif" : String) ≠ "check_sub" :=
  ⟨rfl, by decide, by decide⟩

theorem decode_some_startswith (data : String) (x : String × String)
    (h : decode data = some x) : startswith data "conv_" = true := by
  by_cases hs : startswith data "conv_" = true
  · exact hs
  · exfalso
    rw [decode, if_neg hs] at h
    exact Option.noConfusion h

theorem decode_some_ne_check_sub (data : String) (x : String × String)
    (h : decode data = some x) : data ≠ "check_sub" := by
  intro he
  subst he
  have : decode "check_sub" = none := rfl
  rw [this] at h
  exact Option.noConfusion h

theorem button_callback_decode (tr : Transcoder) (data : String)
    (action filepath : String) (fs : FS)
    (h : decode data = some (action, filepath)) :
    button_callback tr true data fs = conv_branch tr action filepath fs := by
  rw [button_callback, if_neg (decode_some_ne_check_sub data (action, filepath) h),
    if_neg (by decide : ¬ (true = false)), h]

/-- C3 (corrected): the decoder performs no tag validation at all.  Any
payload that decodes (starts with `conv_` and has at least two
underscores) is accepted whatever its tag; for a tag outside the fixed
enumeration the handler then invokes no transcoder — the result is the
same for every transcoder oracle — and reports a generic
"Conversion failed" message, leaving the Storage Area unchanged. -/
theorem decode_no_tag_validation (tr : Transcoder) (data tag path : String) (fs : FS)
    (hdec : decode data = some (tag, path))
    (h1 : tag ∉ ["png", "webp", "jpg", "pdf"]) (h2 : tag ≠ "mp3")
    (hex : FS.existsp fs path = true)
    (hop : FS.existsp fs (output_path path tag) = false) :
    button_callback tr true data fs =
      ([Ev.editMsg ("Converting to " ++ upper tag ++ "..."),
        Ev.editMsg "Conversion failed."], fs) := by
  rw [button_callback_decode tr data tag path fs hdec, conv_branch]
  simp only [if_neg (show ¬ (FS.existsp fs path = false) by simp [hex]),
    if_neg h1, if_neg h2]
  simp [hop]

/-- C3 witness: concrete run of the unknown-tag payload through the
handler, with an arbitrary concrete transcoder oracle. -/
theorem decode_no_tag_validation_w :
    button_callback (fun _ _ _ => ⟨0, some 10⟩) true "conv_gif_temp_downloads/e.jpg"
        [("temp_downloads/e.jpg", 5)] =
      ([Ev.editMsg "Converting to GIF...", Ev.editMsg "Conversion failed."],
       [("temp_downloads/e.jpg", 5)]) := by
  have h := decode_no_tag_validation (fun _ _ _ => ⟨0, some 10⟩)
    "conv_gif_temp_downloads/e.jpg" "gif" "temp_downloads/e.jpg"
    [("temp_downloads/e.jpg", 5)] rfl (by decide) (by decide) (by decide) (by decide)
  exact h.trans (by decide)

/-! ### Conversion pipeline theorems (claims C1, C4 and C5) -/

theorem conv_branch_success (tr : Transcoder) (action filepath : String) (fs : FS) (sz : Nat)
    (ha : action ∈ ["png", "webp", "jpg", "pdf", "mp3"])
    (hex : FS.existsp fs filepath = true)
    (htr : ∀ m, tr m filepath (output_path filepath action) = ⟨0, some sz⟩) :
    conv_branch tr action filepath fs =
      ([Ev.editMsg ("Converting to " ++ upper action ++ "..."),
        Ev.editMsg "Uploading converted file...",
        Ev.sendDoc (output_path filepath action), Ev.deleteMsg],
       FS.remove (FS.write fs (output_path filepath action) sz) (output_path filepath action)) := by
  have hnot : ¬ (FS.existsp fs filepath = false) := by simp [hex]
  simp only [List.mem_cons, List.not_mem_nil, or_false] at ha
  rcases ha with rfl | rfl | rfl | rfl | rfl <;>
    rw [conv_branch] <;>
    simp [hnot, runFfmpeg, htr FfmpegMode.image, htr FfmpegMode.audio, existsp_write_self]

theorem conv_branch_fail (tr : Transcoder) (action filepath : String) (fs : FS)
    (code sz : Nat)
    (ha : action ∈ ["png", "webp", "jpg", "pdf", "mp3"])
    (hex : FS.existsp fs filepath = true)
    (htr : ∀ m, tr m filepath (output_path filepath action) = ⟨code, some sz⟩)
    (hcode : code ≠ 0) :
    conv_branch tr action filepath fs =
      ([Ev.editMsg ("Converting to " ++ upper action ++ "..."),
        Ev.editMsg "An error occurred during conversion."],
       FS.write fs (output_path filepath action) sz) := by
  have hnot : ¬ (FS.existsp fs filepath = false) := by simp [hex]
  simp only [List.mem_cons, List.not_mem_nil, or_false] at ha
  rcases ha with rfl | rfl | rfl | rfl | rfl <;>
    rw [conv_branch] <;>
    simp [hnot, runFfmpeg, htr FfmpegMode.image, htr FfmpegMode.audio, hcode]

/-- C1 counterexample: a successful conversion (transcoder exits 0 and
writes the output) sends the converted document, yet the SOURCE file is
still present in the Storage Area afterwards — the code deletes only the
output after sending it, never the source, so "the source file is deleted
once a terminal outcome is reached" is false. -/
theorem convert_source_not_deleted_cex :
    Ev.sendDoc "temp_downloads/f_converted.png" ∈
      (button_callback (fun _ _ _ => ⟨0, some 10⟩) true "conv_png_temp_downloads/f.jpg"
        [("temp_downloads/f.jpg", 9)]).1
    ∧ FS.existsp
        (button_callback (fun _ _ _ => ⟨0, some 10⟩) true "conv_png_temp_downloads/f.jpg"
          [("temp_downloads/f.jpg", 9)]).2 "temp_downloads/f.jpg" = true := by
  decide

/-- C1 (corrected): for every conversion dispatched from a button click
whose source exists and whose transcoder run succeeds, the converted
artifact is delivered, but the source file is NOT deleted — it remains in
the Storage Area (and in the untouched session), so a subsequent archive
request would still include it. -/
theorem convert_source_retained (tr : Transcoder) (data action filepath : String)
    (fs : FS) (sz : Nat)
    (hdec : decode data = some (action, filepath))
    (ha : action ∈ ["png", "webp", "jpg", "pdf", "mp3"])
    (hex : FS.existsp fs filepath = true)
    (htr : ∀ m, tr m filepath (output_path filepath action) = ⟨0, some sz⟩)
    (hne : filepath ≠ output_path filepath action) :
    Ev.sendDoc (output_path filepath action) ∈ (button_callback tr true data fs).1
    ∧ FS.existsp (button_callback tr true data fs).2 filepath = true := by
  rw [button_callback_decode tr data action filepath fs hdec,
    conv_branch_success tr action filepath fs sz ha hex htr]
  constructor
  · simp
  · rw [existsp_remove_ne _ _ _ hne, existsp_write_ne _ _ _ _ hne]
    exact hex

/-- C1 witness: concrete successful conversion keeping its source. -/
theorem convert_source_retained_w :
    Ev.sendDoc "temp_downloads/k_converted.webp" ∈
      (button_callback (fun _ _ _ => ⟨0, some 7⟩) true "conv_webp_temp_downloads/k.jpg"
        [("temp_downloads/k.jpg", 3)]).1
    ∧ FS.existsp
        (button_callback (fun _ _ _ => ⟨0, some 7⟩) true "conv_webp_temp_downloads/k.jpg"
          [("temp_downloads/k.jpg", 3)]).2 "temp_downloads/k.jpg" = true :=
  convert_source_retained (fun _ _ _ => ⟨0, some 7⟩) "conv_webp_temp_downloads/k.jpg"
    "webp" "temp_downloads/k.jpg" [("temp_downloads/k.jpg", 3)] 7
    rfl (by decide) (by decide) (fun _ => rfl) (by decide)

/-- C4 counterexample: the transcoder writes an output of 60000000 bytes,
far above the 49 MiB ceiling, and the handler delivers it anyway — there
is no Size Guard on the conversion path, so "the produced output file is
passed through the Size Guard before delivery" is false. -/
theorem convert_output_oversize_delivered_cex :
    60000000 > sizeLimit
    ∧ Ev.sendDoc "temp_downloads/g_converted.png" ∈
        (button_callback (fun _ _ _ => ⟨0, some 60000000⟩) true
          "conv_png_temp_downloads/g.jpg" [("temp_downloads/g.jpg", 5)]).1 := by
  decide

/-- C4 (corrected): the conversion pipeline never consults the Size Guard:
whatever size the transcoder output has — including sizes above the fixed
ceiling — the output is delivered, and it is removed from the Storage Area
only after the successful delivery. -/
theorem convert_no_size_guard (tr : Transcoder) (data action filepath : String)
    (fs : FS) (sz : Nat)
    (hdec : decode data = some (action, filepath))
    (ha : action ∈ ["png", "webp", "jpg", "pdf", "mp3"])
    (hex : FS.existsp fs filepath = true)
    (htr : ∀ m, tr m filepath (output_path filepath action) = ⟨0, some sz⟩)
    (_hbig : sz > sizeLimit) :
    (button_callback tr true data fs).1 =
      [Ev.editMsg ("Converting to " ++ upper action ++ "..."),
       Ev.editMsg "Uploading converted file...",
       Ev.sendDoc (output_path filepath action), Ev.deleteMsg]
    ∧ FS.existsp (button_callback tr true data fs).2 (output_path filepath action) = false := by
  rw [button_callback_decode tr data action filepath fs hdec,
    conv_branch_success tr action filepath fs sz ha hex htr]
  exact ⟨rfl, existsp_remove_self _ _⟩

/-- C4 witness: a concrete output one byte above the ceiling is delivered. -/
theorem convert_no_size_guard_w :
    (button_callback (fun _ _ _ => ⟨0, some 51380225⟩) true "conv_pdf_temp_downloads/m.jpg"
        [("temp_downloads/m.jpg", 3)]).1 =
      [Ev.editMsg ("Converting to " ++ upper "pdf" ++ "..."),
       Ev.editMsg "Uploading converted file...",
       Ev.sendDoc (output_path "temp_downloads/m.jpg" "pdf"), Ev.deleteMsg]
    ∧ FS.existsp
        (button_callback (fun _ _ _ => ⟨0, some 51380225⟩) true "conv_pdf_temp_downloads/m.jpg"
          [("temp_downloads/m.jpg", 3)]).2 (output_path "temp_downloads/m.jpg" "pdf") = false :=
  convert_no_size_guard (fun _ _ _ => ⟨0, some 51380225⟩) "conv_pdf_temp_downloads/m.jpg"
    "pdf" "temp_downloads/m.jpg" [("temp_downloads/m.jpg", 3)] 51380225
    rfl (by decide) (by decide) (fun _ => rfl) (by decide)

/-- C5 counterexample: the transcoder exits 1 having written a partial
output file; the handler reports a generic error but the output file is
still in the Storage Area afterwards — "leaves no orphaned output file" is
false. -/
theorem transcode_fail_orphan_output_cex :
    (button_callback (fun _ _ _ => ⟨1, some 10⟩) true "conv_png_temp_downloads/h.jpg"
        [("temp_downloads/h.jpg", 5)]).1 =
      [Ev.editMsg "Converting to PNG...", Ev.editMsg "An error occurred during conversion."]
    ∧ FS.existsp
        (button_callback (fun _ _ _ => ⟨1, some 10⟩) true "conv_png_temp_downloads/h.jpg"
          [("temp_downloads/h.jpg", 5)]).2 "temp_downloads/h_converted.png" = true := by
  decide

/-- C5 (corrected): on a non-zero transcoder exit the user sees a generic
conversion-error message (the "TranscodeFailed" of the taxonomy), but any
output file the transcoder wrote before failing is NOT cleaned up: it
remains in the Storage Area as an orphan. -/
theorem transcode_fail_output_retained (tr : Transcoder) (data action filepath : String)
    (fs : FS) (code sz : Nat)
    (hdec : decode data = some (action, filepath))
    (ha : action ∈ ["png", "webp", "jpg", "pdf", "mp3"])
    (hex : FS.existsp fs filepath = true)
    (htr : ∀ m, tr m filepath (output_path filepath action) = ⟨code, some sz⟩)
    (hcode : code ≠ 0) :
    (button_callback tr true data fs).1 =
      [Ev.editMsg ("Converting to " ++ upper action ++ "..."),
       Ev.editMsg "An error occurred during conversion."]
    ∧ FS.existsp (button_callback tr true data fs).2 (output_path filepath action) = true := by
  rw [button_callback_decode tr data action filepath fs hdec,
    conv_branch_fail tr action filepath fs code sz ha hex htr hcode]
  exact ⟨rfl, existsp_write_self _ _ _⟩

/-- C5 witness: concrete failing mp3 extraction leaving its partial output. -/
theorem transcode_fail_output_retained_w :
    (button_callback (fun _ _ _ => ⟨2, some 4⟩) true "conv_mp3_temp_downloads/n.mp4"
        [("temp_downloads/n.mp4", 3)]).1 =
      [Ev.editMsg ("Converting to " ++ upper "mp3" ++ "..."),
       Ev.editMsg "An error occurred during conversion."]
    ∧ FS.existsp
        (button_callback (fun _ _ _ => ⟨2, some 4⟩) true "conv_mp3_temp_downloads/n.mp4"
          [("temp_downloads/n.mp4", 3)]).2 (output_path "temp_downloads/n.mp4" "mp3") = true :=
  transcode_fail_output_retained (fun _ _ _ => ⟨2, some 4⟩) "conv_mp3_temp_downloads/n.mp4"
    "mp3" "temp_downloads/n.mp4" [("temp_downloads/n.mp4", 3)] 2 4
    rfl (by decide) (by decide) (fun _ => rfl) (by decide)

/-! ### Archive Builder theorems (claims C6, C7 and C10) -/

theorem zipAdd_clean (failOn : String → Bool) :
    ∀ (files : List String) (acc : List String) (fs : FS),
      files.Nodup → (∀ f ∈ files, FS.existsp fs f = true) →
      (∀ f ∈ files, failOn f = false) →
      zipAdd failOn files acc fs =
        ⟨acc ++ files.map basename, files.foldl FS.remove fs, false⟩ := by
  intro files
  induction files with
  | nil => intro acc fs _ _ _; simp [zipAdd]
  | cons f rest ih =>
    intro acc fs hnd hex hfail
    have hf : FS.existsp fs f = true := hex f (List.mem_cons_self f rest)
    have hff : failOn f = false := hfail f (List.mem_cons_self f rest)
    have hnr : f ∉ rest := (List.nodup_cons.mp hnd).1
    simp only [zipAdd, if_pos hf, if_neg (show ¬ (failOn f = true) by simp [hff])]
    rw [ih (acc ++ [basename f]) (FS.remove fs f) (List.nodup_cons.mp hnd).2
      (by
        intro g hg
        have hgf : g ≠ f := fun he => hnr (he ▸ hg)
        rw [existsp_remove_ne fs f g hgf]
        exact hex g (List.mem_cons_of_mem f hg))
      (fun g hg => hfail g (List.mem_cons_of_mem f hg))]
    simp

/-- C6 (confirmed): archiving with an absent or empty session yields the
no-files refusal and touches neither the Storage Area nor the store (no
archive file is created); archiving a session of N distinct files that all
exist (with a non-faulting zip writer) builds an archive whose entries are
exactly the N base names, in order, and leaves the user's session list
empty. -/
theorem zip_files_spec (zipSize : List String → Nat) (failOn : String → Bool)
    (user : Nat) (zipname : String) (sessions : Sessions) (fs : FS) :
    ((slookup user sessions = none ∨ slookup user sessions = some []) →
      zip_files zipSize failOn true user zipname sessions fs =
        ⟨ZipOutcome.noFiles, sessions, fs, []⟩)
    ∧ (∀ files, slookup user sessions = some files → files ≠ [] → files.Nodup →
        (∀ f ∈ files, FS.existsp fs f = true) → (∀ f ∈ files, failOn f = false) →
        (zip_files zipSize failOn true user zipname sessions fs).entries = files.map basename
        ∧ (zip_files zipSize failOn true user zipname sessions fs).entries.length = files.length
        ∧ slookup user (zip_files zipSize failOn true user zipname sessions fs).sessions
            = some []) := by
  constructor
  · rintro (h | h) <;> simp [zip_files, h]
  · intro files hs hne hnd hex hfail
    have hex0 : ∀ f ∈ files, FS.existsp (FS.write fs zipname 0) f = true :=
      fun f hf => existsp_write_of fs zipname 0 f (hex f hf)
    have hadd := zipAdd_clean failOn files [] (FS.write fs zipname 0) hnd hex0 hfail
    simp only [zip_files, hs, if_neg hne, hadd, if_neg (by decide : ¬ (true = false))]
    split
    next h => exact absurd h (by simp)
    next =>
      split <;> simp [slookup_sset_self]

/-- C6 witness: two distinct existing files are archived under their base
names and the session ends up empty. -/
theorem zip_files_spec_w :
    (zip_files (fun l => l.length) (fun _ => false) true 7 "temp_downloads/Archive_7_w.zip"
        [(7, ["temp_downloads/w2.jpg", "temp_downloads/w3.png"])]
        [("temp_downloads/w2.jpg", 4), ("temp_downloads/w3.png", 6)]).entries
      = ["temp_downloads/w2.jpg", "temp_downloads/w3.png"].map basename
    ∧ (zip_files (fun l => l.length) (fun _ => false) true 7 "temp_downloads/Archive_7_w.zip"
        [(7, ["temp_downloads/w2.jpg", "temp_downloads/w3.png"])]
        [("temp_downloads/w2.jpg", 4), ("temp_downloads/w3.png", 6)]).entries.length
      = (["temp_downloads/w2.jpg", "temp_downloads/w3.png"] : List String).length
    ∧ slookup 7 (zip_files (fun l => l.length) (fun _ => false) true 7
        "temp_downloads/Archive_7_w.zip"
        [(7, ["temp_downloads/w2.jpg", "temp_downloads/w3.png"])]
        [("temp_downloads/w2.jpg", 4), ("temp_downloads/w3.png", 6)]).sessions = some [] :=
  (zip_files_spec (fun l => l.length) (fun _ => false) 7 "temp_downloads/Archive_7_w.zip"
      [(7, ["temp_downloads/w2.jpg", "temp_downloads/w3.png"])]
      [("temp_downloads/w2.jpg", 4), ("temp_downloads/w3.png", 6)]).2
    ["temp_downloads/w2.jpg", "temp_downloads/w3.png"]
    rfl (by decide) (by decide) (by decide) (by decide)

/-- C7 (confirmed): whenever the archive was actually constructed (any of
the error, too-large or sent outcomes), the archive file is gone from the
Storage Area at the end of the operation; and on a Size Guard rejection the
user's session is still the cleared one (consumed files are not
restored). -/
theorem zip_archive_cleanup (zipSize : List String → Nat) (failOn : String → Bool)
    (user : Nat) (zipname : String) (sessions : Sessions) (fs : FS) :
    (((zip_files zipSize failOn true user zipname sessions fs).outcome = ZipOutcome.errorZip
      ∨ (zip_files zipSize failOn true user zipname sessions fs).outcome = ZipOutcome.tooLarge
      ∨ (zip_files zipSize failOn true user zipname sessions fs).outcome = ZipOutcome.sent) →
      FS.existsp (zip_files zipSize failOn true user zipname sessions fs).fs zipname = false)
    ∧ ((zip_files zipSize failOn true user zipname sessions fs).outcome = ZipOutcome.tooLarge →
        slookup user (zip_files zipSize failOn true user zipname sessions fs).sessions
          = some []) := by
  rcases h : slookup user sessions with _ | files
  · constructor
    · rintro (hc | hc | hc) <;> (simp [zip_files, h] at hc)
    · intro hc; simp [zip_files, h] at hc
  · by_cases he : files = []
    · subst he
      constructor
      · rintro (hc | hc | hc) <;> (simp [zip_files, h] at hc)
      · intro hc; simp [zip_files, h] at hc
    · simp only [zip_files, h, if_neg he, if_neg (by decide : ¬ (true = false))]
      split
      · exact ⟨fun _ => existsp_remove_self _ _, fun hc => absurd hc (by simp)⟩
      · split
        · exact ⟨fun _ => existsp_remove_self _ _, fun _ => slookup_sset_self user [] sessions⟩
        · exact ⟨fun _ => existsp_remove_self _ _, fun hc => absurd hc (by simp)⟩

/-- C7 witness: an archive one byte over the ceiling is rejected, the
archive file is removed, and the session stays cleared. -/
theorem zip_archive_cleanup_w :
    FS.existsp (zip_files (fun _ => sizeLimit + 1) (fun _ => false) true 7
        "temp_downloads/Archive_7_x.zip" [(7, ["temp_downloads/w4.jpg"])]
        [("temp_downloads/w4.jpg", 4)]).fs "temp_downloads/Archive_7_x.zip" = false
    ∧ slookup 7 (zip_files (fun _ => sizeLimit + 1) (fun _ => false) true 7
        "temp_downloads/Archive_7_x.zip" [(7, ["temp_downloads/w4.jpg"])]
        [("temp_downloads/w4.jpg", 4)]).sessions = some [] :=
  ⟨(zip_archive_cleanup (fun _ => sizeLimit + 1) (fun _ => false) 7
      "temp_downloads/Archive_7_x.zip" [(7, ["temp_downloads/w4.jpg"])]
      [("temp_downloads/w4.jpg", 4)]).1 (Or.inr (Or.inl (by decide))),
   (zip_archive_cleanup (fun _ => sizeLimit + 1) (fun _ => false) 7
      "temp_downloads/Archive_7_x.zip" [(7, ["temp_downloads/w4.jpg"])]
      [("temp_downloads/w4.jpg", 4)]).2 (by decide)⟩

/-- C10 (confirmed): when `zipf.write` raises partway through (here on the
second file, after the first was archived and deleted), the handler
reports the zip error, the user's session list is left UNCHANGED, and the
first file is already gone from the Storage Area — so the surviving list
references a file that no longer exists. -/
theorem zip_fail_session_unchanged (zipSize : List String → Nat) (failOn : String → Bool)
    (user : Nat) (zipname a b : String) (rest : List String) (sessions : Sessions) (fs : FS)
    (hs : slookup user sessions = some (a :: b :: rest))
    (ha : FS.existsp fs a = true) (hb : FS.existsp fs b = true)
    (hab : b ≠ a) (hfa : failOn a = false) (hfb : failOn b = true) :
    (zip_files zipSize failOn true user zipname sessions fs).outcome = ZipOutcome.errorZip
    ∧ (zip_files zipSize failOn true user zipname sessions fs).sessions = sessions
    ∧ FS.existsp (zip_files zipSize failOn true user zipname sessions fs).fs a = false := by
  have ha0 : FS.existsp (FS.write fs zipname 0) a = true := existsp_write_of _ _ _ _ ha
  have hb1 : FS.existsp (FS.remove (FS.write fs zipname 0) a) b = true := by
    rw [existsp_remove_ne _ _ _ hab]; exact existsp_write_of _ _ _ _ hb
  have hadd : zipAdd failOn (a :: b :: rest) [] (FS.write fs zipname 0)
      = ⟨[basename a], FS.remove (FS.write fs zipname 0) a, true⟩ := by
    simp [zipAdd, ha0, hb1, hfa, hfb]
  have hres : zip_files zipSize failOn true user zipname sessions fs =
      ⟨ZipOutcome.errorZip, sessions,
       FS.remove (FS.write (FS.remove (FS.write fs zipname 0) a) zipname
         (zipSize [basename a])) zipname, [basename a]⟩ := by
    simp [zip_files, hs, hadd]
  rw [hres]
  refine ⟨rfl, rfl, ?_⟩
  by_cases haz : a = zipname
  · subst haz; exact existsp_remove_self _ _
  · rw [existsp_remove_ne _ _ _ haz, existsp_write_ne _ _ _ _ haz]
    exact existsp_remove_self _ _

/-- C10 witness: session [a, b], fault on b — the session survives intact
while a's file is already deleted. -/
theorem zip_fail_session_unchanged_w :
    (zip_files (fun l => l.length) (fun s => s == "temp_downloads/w6.png") true 7
        "temp_downloads/Archive_7_y.zip"
        [(7, ["temp_downloads/w5.jpg", "temp_downloads/w6.png"])]
        [("temp_downloads/w5.jpg", 4), ("temp_downloads/w6.png", 6)]).outcome
      = ZipOutcome.errorZip
    ∧ (zip_files (fun l => l.length) (fun s => s == "temp_downloads/w6.png") true 7
        "temp_downloads/Archive_7_y.zip"
        [(7, ["temp_downloads/w5.jpg", "temp_downloads/w6.png"])]
        [("temp_downloads/w5.jpg", 4), ("temp_downloads/w6.png", 6)]).sessions
      = [(7, ["temp_downloads/w5.jpg", "temp_downloads/w6.png"])]
    ∧ FS.existsp (zip_files (fun l => l.length) (fun s => s == "temp_downloads/w6.png") true 7
        "temp_downloads/Archive_7_y.zip"
        [(7, ["temp_downloads/w5.jpg", "temp_downloads/w6.png"])]
        [("temp_downloads/w5.jpg", 4), ("temp_downloads/w6.png", 6)]).fs
        "temp_downloads/w5.jpg" = false :=
  zip_fail_session_unchanged (fun l => l.length) (fun s => s == "temp_downloads/w6.png") 7
    "temp_downloads/Archive_7_y.zip" "temp_downloads/w5.jpg" "temp_downloads/w6.png" []
    [(7, ["temp_downloads/w5.jpg", "temp_downloads/w6.png"])]
    [("temp_downloads/w5.jpg", 4), ("temp_downloads/w6.png", 6)]
    rfl (by decide) (by decide) (by decide) (by decide) (by decide)

/-! ### Session Store clearing (claim C8) -/

theorem deleteFiles_absent (files : List String) :
    ∀ (fs : FS) (q : String), FS.existsp fs q = false →
      FS.existsp (deleteFiles files fs) q = false := by
  induction files with
  | nil => intro fs q h; exact h
  | cons f rest ih =>
    intro fs q h
    simp only [deleteFiles]
    apply ih
    by_cases hf : FS.existsp fs f = true
    · rw [if_pos hf]; exact existsp_remove_absent fs f q h
    · rw [if_neg hf]; exact h

theorem deleteFiles_kills (files : List String) :
    ∀ (fs : FS) (f : String), f ∈ files →
      FS.existsp (deleteFiles files fs) f = false := by
  induction files with
  | nil => intro fs f h; exact absurd h (List.not_mem_nil f)
  | cons g rest ih =>
    intro fs f h
    rcases List.mem_cons.mp h with rfl | hf
    · simp only [deleteFiles]
      apply deleteFiles_absent
      by_cases hg : FS.existsp fs f = true
      · rw [if_pos hg]; exact existsp_remove_self fs f
      · rw [if_neg hg]; exact Bool.eq_false_iff.mpr hg
    · simp only [deleteFiles]; exact ih _ f hf

/-- C8 (confirmed): immediately after a clear (from any reachable store
and Storage Area state, hence after any sequence of appends and clears),
the user's session list is empty and no file previously referenced by its
handles exists any more; a file already missing is simply skipped. -/
theorem clear_session_spec (user : Nat) (sessions : Sessions) (fs : FS) :
    (slookup user (clear_session true user sessions fs).sessions).getD [] = []
    ∧ ∀ f ∈ (slookup user sessions).getD [],
        FS.existsp (clear_session true user sessions fs).fs f = false := by
  rcases h : slookup user sessions with _ | files
  · refine ⟨by simp [clear_session, h], ?_⟩
    intro f hf
    simp at hf
  · refine ⟨by simp [clear_session, h, slookup_sset_self], ?_⟩
    intro f hf
    simp only [Option.getD_some] at hf
    have hfs : (clear_session true user sessions fs).fs = deleteFiles files fs := by
      simp [clear_session, h]
    rw [hfs]
    exact deleteFiles_kills files fs f hf

/-- C8 witness: clearing after an append deletes the appended file, even
with a second, already-missing handle in the session. -/
theorem clear_session_spec_w :
    FS.existsp (clear_session true 7
        (session_append 7 "temp_downloads/w1.jpg" [])
        [("temp_downloads/w1.jpg", 3)]).fs "temp_downloads/w1.jpg" = false :=
  (clear_session_spec 7 (session_append 7 "temp_downloads/w1.jpg" [])
      [("temp_downloads/w1.jpg", 3)]).2 "temp_downloads/w1.jpg" (by decide)

/-! ### File-naming theorems (claim C9) -/

theorem sdata_append (s t : String) : (s ++ t).data = s.data ++ t.data := rfl

/-- C9 counterexample: two different direct-link downloads (distinct URLs,
distinct uuid draws) whose URL paths share a basename are stored under the
SAME name — `handle_link` uses the URL basename verbatim with no random or
sequence-derived suffix, so names are not unique and can be reused. -/
theorem link_filename_collision_cex :
    link_filepath "/photos/pic.jpg" "11111111" = link_filepath "/docs/pic.jpg" "22222222"
    ∧ ("/photos/pic.jpg" : String) ≠ "/docs/pic.jpg"
    ∧ ("11111111" : String) ≠ "22222222" :=
  ⟨rfl, by decide, by decide⟩

/-- C9 (corrected): only the uuid-named files are collision-free — media
uploads (32-hex-digit uuid names) are unique across distinct uuid draws;
direct-link downloads reuse the URL basename verbatim whenever it is
non-empty, so their names carry no uniqueness guarantee (only the
empty-basename fallback has a random suffix). -/
theorem media_filepath_unique (u1 u2 e1 e2 : String)
    (h1 : u1.length = 32) (h2 : u2.length = 32) (hne : u1 ≠ u2) :
    media_filepath u1 e1 ≠ media_filepath u2 e2 := by
  intro he
  apply hne
  have hd : (media_filepath u1 e1).data = (media_filepath u2 e2).data :=
    congrArg String.data he
  simp only [media_filepath, sdata_append, List.append_assoc] at hd
  have hd2 := List.append_cancel_left hd
  have hd3 := List.append_cancel_left hd2
  have hlen : u1.data.length = u2.data.length := by
    have e1l : u1.data.length = u1.length := rfl
    have e2l : u2.data.length = u2.length := rfl
    rw [e1l, e2l, h1, h2]
  have hinj := List.append_inj hd3 hlen
  exact String.ext hinj.1

/-- C9 witness: two concrete distinct uuid draws give distinct media
paths. -/
theorem media_filepath_unique_w :
    media_filepath "00000000000000000000000000000001" ".jpg"
      ≠ media_filepath "00000000000000000000000000000002" ".png" :=
  media_filepath_unique "00000000000000000000000000000001"
    "00000000000000000000000000000002" ".jpg" ".png" (by decide) (by decide) (by decide)

end ConverterBot
